import Mathlib

/-!
Verification of the ContestTrack contest aggregation / import / notification
core against its TypeScript source.

Shallow embedding conventions:
* JavaScript timestamps (`Date#getTime()` values) are `Int` milliseconds since
  the Unix epoch; the server process is modelled as running in the UTC zone,
  so the local-time `Date` accessors used by the source coincide with UTC.
* `Math.floor` on a quotient of integers is `Int.fdiv`; the JavaScript `%`
  operator (truncated remainder) is `Int.tmod`.
* Fallible external HTTP calls are values of `FetchResult` supplied in an
  environment record: `.ok v` is a successful response body, `.err` is a
  thrown transport/parse error.
-/

namespace ContestTrack

/-! ## Calendar helpers (semantics of `Date#toISOString` and friends, UTC) -/

/-- Gregorian calendar date of a day count relative to 1970-01-01
(floor-division form of the standard civil-from-days algorithm).
Returns `(year, month, day)` with `month ∈ [1,12]`, `day ∈ [1,31]`. -/
def civilFromDays (days : Int) : Int × Nat × Nat :=
  let z := days + 719468
  let era := z.fdiv 146097
  let doe := (z - era * 146097).toNat
  let yoe := (doe - doe / 1460 + doe / 36524 - doe / 146096) / 365
  let y : Int := (yoe : Int) + era * 400
  let doy := doe - (365 * yoe + yoe / 4 - yoe / 100)
  let mp := (5 * doy + 2) / 153
  let d := doy - (153 * mp + 2) / 5 + 1
  let m := if mp < 10 then mp + 3 else mp - 9
  (if m ≤ 2 then y + 1 else y, m, d)

/-- Day count relative to 1970-01-01 of a Gregorian calendar date
(floor-division form of the standard days-from-civil algorithm). -/
def daysFromCivil (y : Int) (m : Nat) (d : Int) : Int :=
  let y' := if m ≤ 2 then y - 1 else y
  let m' : Nat := if m ≤ 2 then m + 9 else m - 3
  365 * y' + y'.fdiv 4 - y'.fdiv 100 + y'.fdiv 400
    + ((153 * (m' : Int) + 2).fdiv 5) + d - 1 - 719468

/-- Left-pad the decimal rendering of a natural number with zeros. -/
def padNat (width n : Nat) : String :=
  let s := toString n
  if s.length < width then String.mk (List.replicate (width - s.length) '0') ++ s else s

/-- `Date#toISOString` for a millisecond timestamp whose year lies in
0..9999 (the plain, non-expanded ISO 8601 format produced for every
realistic contest date). -/
def isoUTC (t : Int) : String :=
  let days := t.fdiv 86400000
  let msod := (t - days * 86400000).toNat
  let ymd := civilFromDays days
  let hh := msod / 3600000
  let mi := msod % 3600000 / 60000
  let ss := msod % 60000 / 1000
  let ms := msod % 1000
  padNat 4 ymd.1.toNat ++ "-" ++ padNat 2 ymd.2.1 ++ "-" ++ padNat 2 ymd.2.2
    ++ "T" ++ padNat 2 hh ++ ":" ++ padNat 2 mi ++ ":" ++ padNat 2 ss
    ++ "." ++ padNat 3 ms ++ "Z"

/-- `Date#getDay` (day of week, 0 = Sunday); 1970-01-01 was a Thursday. -/
def jsGetDay (t : Int) : Int :=
  (t.fdiv 86400000 + 4).emod 7

/-- `Date#getDate` (day of month, 1-31). -/
def jsGetDate (t : Int) : Int :=
  ((civilFromDays (t.fdiv 86400000)).2.2 : Int)

/-- `Date#setDate n`: set the day of month to `n` (out-of-range values
normalize into adjacent months), keeping the time of day. -/
def jsSetDate (t n : Int) : Int :=
  let days := t.fdiv 86400000
  let msod := t - days * 86400000
  let ymd := civilFromDays days
  (daysFromCivil ymd.1 ymd.2.1 n) * 86400000 + msod

/-- `Date#setHours h m s ms`: set the time of day, keeping the calendar day. -/
def jsSetHours (t h mi s ms : Int) : Int :=
  t.fdiv 86400000 * 86400000 + h * 3600000 + mi * 60000 + s * 1000 + ms

/-- `Math.round (a / b)` for integers with `b > 0`
(`Math.round x = ⌊x + 1/2⌋`, ties toward positive infinity). -/
def jsRoundDiv (a b : Int) : Int :=
  (2 * a + b).fdiv (2 * b)

/-! ## Shared schema (`shared/schema.ts`) -/

/-- `PlatformEnum = z.enum(['codeforces', 'codechef', 'leetcode'])`. -/
inductive Platform where
  | codeforces
  | codechef
  | leetcode
deriving DecidableEq, Repr

/-- The string stored in the `platform` text column. -/
def Platform.str : Platform → String
  | .codeforces => "codeforces"
  | .codechef => "codechef"
  | .leetcode => "leetcode"

/-- A row of the `contests` table (columns of `shared/schema.ts`;
`serial` id plus the picked insert columns). -/
structure Contest where
  id : Nat
  platform : Platform
  name : String
  url : String
  startTime : Int
  endTime : Int
  duration : String
deriving DecidableEq, Repr

/-- A record produced by a platform fetcher (`InsertContest` plus the extra
`difficulty` / `contestType` / `durationMinutes` fields the fetchers attach). -/
structure FetchedContest where
  platform : Platform
  name : String
  url : String
  startTime : Int
  endTime : Int
  duration : String
  difficulty : Option String
  contestType : String
  durationMinutes : Int
deriving DecidableEq, Repr

/-- A row of the `users` table (password omitted: never read by the core). -/
structure User where
  id : Nat
  username : String
  email : String
deriving DecidableEq, Repr

/-- A row of the `notification_preferences` table. -/
structure NotificationPreference where
  id : Nat
  userId : Nat
  emailNotifications : Bool
  notificationTiming : String
  notifyCodeforces : Bool
  notifyCodechef : Bool
  notifyLeetcode : Bool
deriving DecidableEq, Repr

/-- A row of the `contest_reminders` table. -/
structure ContestReminder where
  id : Nat
  userId : Nat
  contestId : Nat
  reminded : Bool
deriving DecidableEq, Repr

/-! ## String helpers -/

/-- Whether the first list of characters is an initial segment of the second. -/
def startsWithChars : List Char → List Char → Bool
  | [], _ => true
  | _ :: _, [] => false
  | a :: as, b :: bs => a = b && startsWithChars as bs

/-- Substring test on character lists. -/
def includesChars (sub : List Char) : List Char → Bool
  | [] => sub.isEmpty
  | c :: rest => startsWithChars sub (c :: rest) || includesChars sub rest

/-- JavaScript `String#includes`. -/
def strIncludes (s sub : String) : Bool :=
  includesChars sub.data s.data

/-! ## Platform fetchers (`server/contest-api.ts`)

Each fetcher is a pure function of a `FetchEnv` describing the current time
and the outcome of every external HTTP call it may perform. -/

/-- Outcome of an external HTTP call: a parsed response body, or a thrown
transport/parse error. -/
inductive FetchResult (α : Type) where
  | ok (val : α)
  | err
deriving DecidableEq, Repr

/-- The fields of a `codeforces.com/api/contest.list` entry read by the
fetcher (the remaining fields of the response are never used). -/
structure CodeforcesContest where
  id : Int
  name : String
  durationSeconds : Int
  startTimeSeconds : Int
deriving DecidableEq, Repr

/-- A `kontests.net` API entry with its date strings already parsed to
millisecond timestamps (the feed carries whole-second timestamps, so parsing
is exact). -/
structure KontestsContest where
  name : String
  url : String
  start_time : Int
  end_time : Int
deriving DecidableEq, Repr

/-- An entry of the LeetCode GraphQL contest lists. -/
structure LeetcodeContest where
  title : String
  titleSlug : String
  startTime : Int
  duration : Int
deriving DecidableEq, Repr

/-- The `data` object of the LeetCode GraphQL response; either list may be
absent (`null`/missing in JavaScript). -/
structure LcGraphQLData where
  topTwoContests : Option (List LeetcodeContest)
  allContests : Option (List LeetcodeContest)
deriving DecidableEq, Repr

/-- The external world seen by one aggregator run: the clock and every HTTP
response. `lcPrimary`'s payload is `none` when the response parses but its
`data` field is null. -/
structure FetchEnv where
  nowMs : Int
  cfResp : FetchResult (List CodeforcesContest)
  ccResp : FetchResult (List KontestsContest)
  lcPrimary : FetchResult (Option LcGraphQLData)
  lcSecondary : FetchResult (List KontestsContest)

/-- `formatDuration` of `contest-api.ts`: hours and minutes via
`Math.floor`, omitting a zero hour or zero minute component. -/
def formatDuration (durationSeconds : Int) : String :=
  let hours := durationSeconds.fdiv 3600
  let minutes := (durationSeconds.tmod 3600).fdiv 60
  if hours = 0 then toString minutes ++ "m"
  else if minutes = 0 then toString hours ++ "h"
  else toString hours ++ "h " ++ toString minutes ++ "m"

/-- `calculateEndTime` of `contest-api.ts`. -/
def calculateEndTime (startTime durationSeconds : Int) : Int :=
  startTime + durationSeconds * 1000

/-- Contest type / difficulty classification of the Codeforces fetcher
(case-insensitive substring matching on the contest name). -/
def cfClassify (contestName : String) : String × Option String :=
  let name := contestName.toLower
  if strIncludes name "div. 1" || strIncludes name "div.1" || strIncludes name "div 1" then
    ("div1", some "1900+")
  else if strIncludes name "div. 2" || strIncludes name "div.2" || strIncludes name "div 2" then
    ("div2", some "1600-1899")
  else if strIncludes name "div. 3" || strIncludes name "div.3" || strIncludes name "div 3" then
    ("div3", some "1300-1599")
  else if strIncludes name "div. 4" || strIncludes name "div.4" || strIncludes name "div 4" then
    ("div4", some "0-1299")
  else if strIncludes name "educational" then ("educational", some "1600+")
  else if strIncludes name "global" then ("global", some "All levels")
  else ("other", none)

/-- Body of the `.map` in `fetchCodeforcesContests`. -/
def cfRecordOf (c : CodeforcesContest) : FetchedContest :=
  let startTime := c.startTimeSeconds * 1000
  let endTime := calculateEndTime startTime c.durationSeconds
  let cls := cfClassify c.name
  { platform := .codeforces
    name := c.name
    url := "https://codeforces.com/contests/" ++ toString c.id
    startTime := startTime
    endTime := endTime
    duration := formatDuration c.durationSeconds
    difficulty := cls.2
    contestType := cls.1
    durationMinutes := c.durationSeconds.fdiv 60 }

/-- `fetchCodeforcesContests`: on success, filter to contests ending within
the last week or later, then normalize; on a thrown error, return `[]`. -/
def fetchCodeforcesContests (env : FetchEnv) : List FetchedContest :=
  match env.cfResp with
  | .ok contests =>
      (contests.filter (fun c =>
        let now := env.nowMs.fdiv 1000
        let contestEndTime := c.startTimeSeconds + c.durationSeconds
        let oneWeekAgo := now - 7 * 24 * 60 * 60
        decide (contestEndTime > oneWeekAgo))).map cfRecordOf
  | .err => []

/-- Contest type / difficulty classification of the CodeChef fetcher. -/
def ccClassify (contestName : String) : String × Option String :=
  let name := contestName.toLower
  if strIncludes name "long" || strIncludes name "challenge" then ("long", some "All levels")
  else if strIncludes name "cook" || strIncludes name "cook-off" then ("cookoff", some "Medium-Hard")
  else if strIncludes name "lunch" || strIncludes name "lunchtime" then ("lunchtime", some "Medium")
  else if strIncludes name "starters" then ("starters", some "All levels")
  else ("other", none)

/-- Body of the `.map` in `fetchCodechefContests` (the source divides the
millisecond difference by 1000; the feed's timestamps are whole seconds, so
floor division is exact). -/
def ccRecordOf (c : KontestsContest) : FetchedContest :=
  let durationSeconds := (c.end_time - c.start_time).fdiv 1000
  let cls := ccClassify c.name
  { platform := .codechef
    name := c.name
    url := c.url
    startTime := c.start_time
    endTime := c.end_time
    duration := formatDuration durationSeconds
    difficulty := cls.2
    contestType := cls.1
    durationMinutes := durationSeconds.fdiv 60 }

/-- `fetchCodechefContests`: normalize the `kontests.net` response, or
return `[]` on a thrown error (both nested catch blocks return `[]`;
the source deliberately uses no dummy data here). -/
def fetchCodechefContests (env : FetchEnv) : List FetchedContest :=
  match env.ccResp with
  | .ok contests => contests.map ccRecordOf
  | .err => []

/-- Contest type classification of the LeetCode GraphQL fetcher (checks
title, then slug; note the source tests `'weekly'` before `'biweekly'`). -/
def lcClassify (title titleSlug : String) : String :=
  let t := title.toLower
  let s := titleSlug.toLower
  if strIncludes t "weekly" || strIncludes s "weekly" then "weekly"
  else if strIncludes t "biweekly" || strIncludes s "biweekly" then "biweekly"
  else "other"

/-- Body of the `.map` in the LeetCode GraphQL branch. -/
def lcRecordOf (c : LeetcodeContest) : FetchedContest :=
  { platform := .leetcode
    name := c.title
    url := "https://leetcode.com/contest/" ++ c.titleSlug
    startTime := c.startTime * 1000
    endTime := (c.startTime + c.duration) * 1000
    duration := formatDuration c.duration
    difficulty := some "Medium-Hard"
    contestType := lcClassify c.title c.titleSlug
    durationMinutes := c.duration.fdiv 60 }

/-- The LeetCode GraphQL branch: validity check, upcoming list selection,
recent-past filter, concatenation, normalization. The source compares
second-valued contest times against fractional `now` seconds; we compare in
milliseconds, which is exact. -/
def lcPrimaryContests (nowMs : Int) (data? : Option LcGraphQLData) : List FetchedContest :=
  match data? with
  | none => []
  | some data =>
      if data.topTwoContests = none ∧ data.allContests = none then []
      else
        let upcomingContests :=
          match data.topTwoContests with
          | some l => l
          | none => match data.allContests with
                    | some l => l.take 2
                    | none => []
        let pastContests :=
          match data.allContests with
          | some l =>
              (l.filter (fun c =>
                let endTime := c.startTime + c.duration
                decide (endTime * 1000 < nowMs ∧ endTime * 1000 > nowMs - 7 * 24 * 60 * 60 * 1000))).take 3
          | none => []
        (upcomingContests ++ pastContests).map lcRecordOf

/-- Body of the `.map` in the LeetCode `kontests.net` fallback branch. -/
def lcKontestsRecordOf (c : KontestsContest) : FetchedContest :=
  let durationSeconds := (c.end_time - c.start_time).fdiv 1000
  let name := c.name.toLower
  let contestType :=
    if strIncludes name "weekly" then "weekly"
    else if strIncludes name "biweekly" then "biweekly"
    else "other"
  { platform := .leetcode
    name := c.name
    url := "https://leetcode.com/contest/"
    startTime := c.start_time
    endTime := c.end_time
    duration := formatDuration durationSeconds
    difficulty := some "Medium-Hard"
    contestType := contestType
    durationMinutes := durationSeconds.fdiv 60 }

/-- The final LeetCode fallback: with no external data at all, the source
synthesizes four placeholder contests from the clock (next/previous
weekly and biweekly Saturdays, contest numbers counted from a fixed base
date of April 1, 2025). -/
def fabricatedLeetcodeContests (nowMs : Int) : List FetchedContest :=
  let dow := jsGetDay nowMs
  let nextWeeklyDate := jsSetHours (jsSetDate nowMs (jsGetDate nowMs + (6 - dow + 7).emod 7)) 2 30 0 0
  let nextBiweeklyDate := jsSetHours (jsSetDate nowMs (jsGetDate nowMs + (6 - dow + 14).emod 14)) 14 30 0 0
  let baseDate := daysFromCivil 2025 4 1 * 86400000
  let weeksSinceBase := (nowMs - baseDate).fdiv (7 * 24 * 60 * 60 * 1000)
  let weeklyContestNumber := 444 + weeksSinceBase
  let biweeklyContestNumber := 154 + weeksSinceBase.fdiv 2
  let contestDuration := 90 * 60 * 1000
  let prevWeeklyDate := jsSetDate nextWeeklyDate (jsGetDate nextWeeklyDate - 7)
  let prevBiweeklyDate := jsSetHours (jsSetDate nowMs (jsGetDate nowMs - (dow + 1))) 14 30 0 0
  [ { platform := .leetcode
      name := "Weekly Contest " ++ toString weeklyContestNumber
      url := "https://leetcode.com/contest/weekly-contest-" ++ toString weeklyContestNumber
      startTime := nextWeeklyDate
      endTime := nextWeeklyDate + contestDuration
      duration := "1h 30m"
      difficulty := some "Medium-Hard"
      contestType := "weekly"
      durationMinutes := 90 }
  , { platform := .leetcode
      name := "Biweekly Contest " ++ toString biweeklyContestNumber
      url := "https://leetcode.com/contest/biweekly-contest-" ++ toString biweeklyContestNumber
      startTime := nextBiweeklyDate
      endTime := nextBiweeklyDate + contestDuration
      duration := "1h 30m"
      difficulty := some "Medium-Hard"
      contestType := "biweekly"
      durationMinutes := 90 }
  , { platform := .leetcode
      name := "Weekly Contest " ++ toString (weeklyContestNumber - 1)
      url := "https://leetcode.com/contest/weekly-contest-" ++ toString (weeklyContestNumber - 1)
      startTime := prevWeeklyDate
      endTime := prevWeeklyDate + contestDuration
      duration := "1h 30m"
      difficulty := some "Medium-Hard"
      contestType := "weekly"
      durationMinutes := 90 }
  , { platform := .leetcode
      name := "Biweekly Contest " ++ toString (biweeklyContestNumber - 1)
      url := "https://leetcode.com/contest/biweekly-contest-" ++ toString (biweeklyContestNumber - 1)
      startTime := prevBiweeklyDate
      endTime := prevBiweeklyDate + contestDuration
      duration := "1h 30m"
      difficulty := some "Medium-Hard"
      contestType := "biweekly"
      durationMinutes := 90 } ]

/-- `fetchLeetcodeContests`: GraphQL first; on a thrown error fall back to
`kontests.net`; if that also throws, return the synthesized placeholder
contests. (The outermost catch of the source is unreachable: every inner
branch returns.) -/
def fetchLeetcodeContests (env : FetchEnv) : List FetchedContest :=
  match env.lcPrimary with
  | .ok data? => lcPrimaryContests env.nowMs data?
  | .err =>
      match env.lcSecondary with
      | .ok contests => contests.map lcKontestsRecordOf
      | .err => fabricatedLeetcodeContests env.nowMs

/-- `fetchAllContests`: run the three fetchers and concatenate their results
in platform order (the `Promise.all` of the source; its catch is unreachable
because no fetcher ever rejects). -/
def fetchAllContests (env : FetchEnv) : List FetchedContest :=
  fetchCodeforcesContests env ++ fetchCodechefContests env ++ fetchLeetcodeContests env

/-! ## Deduplicating importer (`server/routes.ts`, `fetchAndStoreContests`) -/

/-- The dedup key `` `${platform}-${name}-${new Date(startTime).toISOString()}` ``. -/
def contestKey (platform : Platform) (name : String) (startTime : Int) : String :=
  platform.str ++ "-" ++ name ++ "-" ++ isoUTC startTime

/-- Dedup key of a stored contest row. -/
def rowKey (c : Contest) : String :=
  contestKey c.platform c.name c.startTime

/-- Dedup key of a fetched contest record. -/
def fetchedKey (c : FetchedContest) : String :=
  contestKey c.platform c.name c.startTime

/-- The contest store as the importer sees it: the stored rows (in insertion
order, as `MemStorage`'s id-keyed map iterates) and the next serial id. -/
structure ImportState where
  contests : List Contest
  nextContestId : Nat
deriving Repr

/-- `storage.createContest`: assign the next serial id and append the row. -/
def createContest (st : ImportState) (c : FetchedContest) : ImportState :=
  { contests := st.contests ++
      [{ id := st.nextContestId, platform := c.platform, name := c.name, url := c.url,
         startTime := c.startTime, endTime := c.endTime, duration := c.duration }]
    nextContestId := st.nextContestId + 1 }

/-- The `for (const contest of contests)` loop of `fetchAndStoreContests`:
`existingKeys` is the key map built once before the loop (the source never
adds the keys of freshly inserted rows to it); `n` is `newContestsCount`. -/
def importLoop (existingKeys : List String) :
    List FetchedContest → ImportState → Nat → ImportState × Nat
  | [], st, n => (st, n)
  | c :: rest, st, n =>
      if fetchedKey c ∈ existingKeys then importLoop existingKeys rest st n
      else importLoop existingKeys rest (createContest st c) (n + 1)

/-- `fetchAndStoreContests`, given the aggregator output `fetched`: build the
key map from the current store, then insert every fetched contest whose key
is absent from that map. Returns the new store and `newContestsCount`. -/
def fetchAndStoreContests (fetched : List FetchedContest) (st : ImportState) :
    ImportState × Nat :=
  importLoop (st.contests.map rowKey) fetched st 0

/-- Modelled from the spec: the importer contract of §4.3 as the claim reads
it — the membership test is made against the store *at the time of each
insertion*, so a key inserted earlier in the same batch is also skipped.
This is the comparison point for the refinement claim about
`fetchAndStoreContests`; it is not code of the repository. -/
def importLoopLive : List FetchedContest → ImportState → Nat → ImportState × Nat
  | [], st, n => (st, n)
  | c :: rest, st, n =>
      if fetchedKey c ∈ st.contests.map rowKey then importLoopLive rest st n
      else importLoopLive rest (createContest st c) (n + 1)

/-- Modelled from the spec: `fetchAndStoreContests` as the claim states it
(dedup against the live store rather than the pre-run snapshot). -/
def fetchAndStoreContestsLive (fetched : List FetchedContest) (st : ImportState) :
    ImportState × Nat :=
  importLoopLive fetched st 0

/-- Insert-order numbering of a batch of records starting at serial id `n`
(used to state what the importer appends). -/
def numberRows (n : Nat) : List FetchedContest → List Contest
  | [] => []
  | c :: rest =>
      { id := n, platform := c.platform, name := c.name, url := c.url,
        startTime := c.startTime, endTime := c.endTime, duration := c.duration }
        :: numberRows (n + 1) rest

/-! ## Notification scheduler (`server/email.ts`, `processContestNotifications`)

The relational state read and written by one scheduler tick, with the email
collaborator abstracted as an environment (`transporter` readiness and the
per-send outcome of `sendMail`). Each call of
`sendContestNotificationEmail` is recorded in a dispatch log as
`(userId, contestId, returned-success)`. -/

/-- State of the stores touched by the scheduler and the reminder endpoint. -/
structure SchedState where
  contests : List Contest
  users : List User
  prefs : List NotificationPreference
  reminders : List ContestReminder
  nextReminderId : Nat
deriving DecidableEq, Repr

/-- One entry of the dispatch log: user id, contest id, and the boolean
returned by `sendContestNotificationEmail`. -/
abbrev DispatchEntry := Nat × Nat × Bool

/-- The email collaborator: whether the nodemailer transporter was
initialized, and the outcome of `transporter.sendMail` per (user, contest). -/
structure EmailEnv where
  transporterReady : Bool
  sendOk : Nat → Nat → Bool

/-- `sendContestNotificationEmail`: false when the transporter is missing or
the user's email is falsy; otherwise the outcome of `sendMail` (a thrown
send error is caught and returned as false). -/
def sendContestNotificationEmail (env : EmailEnv) (user : User) (contest : Contest) : Bool :=
  if env.transporterReady = false then false
  else if user.email = "" then false
  else env.sendOk user.id contest.id

/-- Modelled from the spec: `storage.getAllUsers` (the user directory
`listAll() → User[]` of §6) is called by the scheduler but not implemented
in any source file under `src/`; modelled as listing the user store. -/
def getAllUsers (st : SchedState) : List User :=
  st.users

/-- `storage.getNotificationPreferences`: the row of the given user, if any. -/
def getNotificationPreferences (st : SchedState) (userId : Nat) :
    Option NotificationPreference :=
  st.prefs.find? (fun p => decide (p.userId = userId))

/-- `storage.getContestReminderByUserAndContest`. -/
def getContestReminderByUserAndContest (st : SchedState) (userId contestId : Nat) :
    Option ContestReminder :=
  st.reminders.find? (fun r => decide (r.userId = userId ∧ r.contestId = contestId))

/-- `storage.createContestReminder`: assign the next serial id, append. -/
def createContestReminder (st : SchedState) (userId contestId : Nat) (reminded : Bool) :
    SchedState :=
  { st with
      reminders := st.reminders ++ [⟨st.nextReminderId, userId, contestId, reminded⟩]
      nextReminderId := st.nextReminderId + 1 }

/-- `storage.updateContestReminder`: set the `reminded` flag of the row with
the given id. -/
def updateContestReminder (st : SchedState) (id : Nat) (reminded : Bool) : SchedState :=
  { st with
      reminders := st.reminders.map (fun r =>
        if r.id = id then { r with reminded := reminded } else r) }

/-- `storage.getUpcomingContests` (no platform filter): contests with a
strictly future start, ascending by start time (stable, as the JavaScript
comparator sort). -/
def getUpcomingContests (now : Int) (contests : List Contest) : List Contest :=
  (contests.filter (fun c => decide (c.startTime > now))).mergeSort
    (fun a b => decide (a.startTime ≤ b.startTime))

/-- The platform notify-flag lookup
`` preferences[`notify${capitalize(platform)}`] ``. -/
def notifyFlagFor (p : NotificationPreference) : Platform → Bool
  | .codeforces => p.notifyCodeforces
  | .codechef => p.notifyCodechef
  | .leetcode => p.notifyLeetcode

/-- The `switch (preferences.notificationTiming)` of the scheduler: the
qualification window for the given time (ms) until contest start. Any
unrecognized timing string leaves `shouldNotify` false. -/
def shouldNotifyAt (timing : String) (timeUntilStart : Int) : Bool :=
  if timing = "1hour" then
    decide (timeUntilStart ≤ 60 * 60 * 1000 ∧ timeUntilStart > 50 * 60 * 1000)
  else if timing = "3hours" then
    decide (timeUntilStart ≤ 3 * 60 * 60 * 1000 ∧ timeUntilStart > 170 * 60 * 1000)
  else if timing = "1day" then
    decide (timeUntilStart ≤ 24 * 60 * 60 * 1000 ∧ timeUntilStart > 23 * 60 * 60 * 1000)
  else false

/-- Body of the inner `for (const user of users)` loop of
`processContestNotifications`, for one (contest, user) pair. -/
def processUserForContest (env : EmailEnv) (contest : Contest) (timeUntilStart : Int)
    (user : User) (st : SchedState) : SchedState × List DispatchEntry :=
  match getNotificationPreferences st user.id with
  | none => (st, [])
  | some preferences =>
      if preferences.emailNotifications = false then (st, [])
      else if notifyFlagFor preferences contest.platform = false then (st, [])
      else if shouldNotifyAt preferences.notificationTiming timeUntilStart then
        match getContestReminderByUserAndContest st user.id contest.id with
        | none =>
            let st' := createContestReminder st user.id contest.id true
            (st', [(user.id, contest.id, sendContestNotificationEmail env user contest)])
        | some existingReminder =>
            if existingReminder.reminded = false then
              let st' := updateContestReminder st existingReminder.id true
              (st', [(user.id, contest.id, sendContestNotificationEmail env user contest)])
            else (st, [])
      else (st, [])

/-- The inner user loop, threading the store state and concatenating the
dispatch log. -/
def usersLoop (env : EmailEnv) (contest : Contest) (timeUntilStart : Int) :
    List User → SchedState → SchedState × List DispatchEntry
  | [], st => (st, [])
  | u :: rest, st =>
      let r1 := processUserForContest env contest timeUntilStart u st
      let r2 := usersLoop env contest timeUntilStart rest r1.1
      (r2.1, r1.2 ++ r2.2)

/-- The outer `for (const contest of upcomingContests)` loop:
`timeUntilStart` is computed per contest from the tick's fixed `now`, and
the user list is re-read from the store for each contest. -/
def contestsLoop (env : EmailEnv) (now : Int) :
    List Contest → SchedState → SchedState × List DispatchEntry
  | [], st => (st, [])
  | c :: rest, st =>
      let timeUntilStart := c.startTime - now
      let r1 := usersLoop env c timeUntilStart (getAllUsers st) st
      let r2 := contestsLoop env now rest r1.1
      (r2.1, r1.2 ++ r2.2)

/-- One scheduler tick, `processContestNotifications`: scan the upcoming
contests and every user, creating/updating reminders and dispatching
notification emails. Returns the new state and the dispatch log. -/
def processContestNotifications (env : EmailEnv) (now : Int) (st : SchedState) :
    SchedState × List DispatchEntry :=
  contestsLoop env now (getUpcomingContests now st.contests) st

/-! ## Reminder opt-in endpoint (`server/routes.ts`, `POST /api/contest-reminders`) -/

/-- HTTP outcome of the reminder opt-in endpoint. -/
inductive ReminderRouteResult where
  | notFound
  | conflict (existing : ContestReminder)
  | created (reminder : ContestReminder)
deriving DecidableEq, Repr

/-- The reminder opt-in endpoint: 404 when the contest does not exist, 409
when a reminder for the (user, contest) pair already exists, otherwise
create the reminder with `reminded := false` (201). -/
def createContestReminderRoute (userId contestId : Nat) (st : SchedState) :
    SchedState × ReminderRouteResult :=
  match st.contests.find? (fun c => decide (c.id = contestId)) with
  | none => (st, .notFound)
  | some _ =>
      match getContestReminderByUserAndContest st userId contestId with
      | some existing => (st, .conflict existing)
      | none =>
          (createContestReminder st userId contestId false,
           .created ⟨st.nextReminderId, userId, contestId, false⟩)

/-- At most one reminder row per (userId, contestId) pair. -/
def ReminderPairUnique (st : SchedState) : Prop :=
  st.reminders.Pairwise (fun a b => ¬(a.userId = b.userId ∧ a.contestId = b.contestId))

/-- One step of the system over the reminder store: a scheduler tick or a
call of the reminder opt-in endpoint. -/
inductive SchedStep : SchedState → SchedState → Prop where
  | tick (env : EmailEnv) (now : Int) (st : SchedState) :
      SchedStep st (processContestNotifications env now st).1
  | optIn (userId contestId : Nat) (st : SchedState) :
      SchedStep st (createContestReminderRoute userId contestId st).1

/-- Reachability via scheduler ticks and opt-in calls. -/
inductive SchedReachable : SchedState → SchedState → Prop where
  | refl (st : SchedState) : SchedReachable st st
  | step {s t u : SchedState} : SchedReachable s t → SchedStep t u → SchedReachable s u

/-! ## Importer lemmas -/

/-- The fetched records of a batch whose dedup key is absent from `keys`. -/
def newOnes (keys : List String) (fetched : List FetchedContest) : List FetchedContest :=
  fetched.filter (fun c => decide (fetchedKey c ∉ keys))

theorem rowKey_numberRows (n : Nat) (l : List FetchedContest) :
    (numberRows n l).map rowKey = l.map fetchedKey := by
  induction l generalizing n with
  | nil => rfl
  | cons c rest ih => simp [numberRows, ih, rowKey, fetchedKey]

theorem importLoop_characterization (existingKeys : List String)
    (fetched : List FetchedContest) (st : ImportState) (n : Nat) :
    importLoop existingKeys fetched st n
      = ({ contests := st.contests
            ++ numberRows st.nextContestId (newOnes existingKeys fetched),
           nextContestId :=
             st.nextContestId + (newOnes existingKeys fetched).length },
         n + (newOnes existingKeys fetched).length) := by
  induction fetched generalizing st n with
  | nil => simp [importLoop, newOnes, numberRows]
  | cons c rest ih =>
      by_cases h : fetchedKey c ∈ existingKeys
      · simp [importLoop, h, newOnes, List.filter_cons, ih]
      · simp only [importLoop, if_neg h]
        rw [ih]
        simp [newOnes, List.filter_cons, h, createContest, numberRows,
          Nat.add_assoc, Nat.add_comm 1]

/-- Full characterization of one importer run: the pre-existing rows are
left unchanged, and the appended rows are exactly the fetched records whose
key is absent from the pre-run snapshot, in fetch order, numbered from the
next serial id. -/
theorem fetchAndStoreContests_characterization
    (fetched : List FetchedContest) (st : ImportState) :
    fetchAndStoreContests fetched st
      = ({ contests := st.contests
            ++ numberRows st.nextContestId (newOnes (st.contests.map rowKey) fetched),
           nextContestId :=
             st.nextContestId + (newOnes (st.contests.map rowKey) fetched).length },
         (newOnes (st.contests.map rowKey) fetched).length) := by
  have h := importLoop_characterization (st.contests.map rowKey) fetched st 0
  simpa [fetchAndStoreContests] using h

theorem newOnes_eq_nil_iff (keys : List String) (fetched : List FetchedContest) :
    newOnes keys fetched = [] ↔ ∀ c ∈ fetched, fetchedKey c ∈ keys := by
  simp [newOnes, List.filter_eq_nil_iff]

/-- After one run, every fetched record's key is present in the store. -/
theorem key_mem_after_run (fetched : List FetchedContest) (st : ImportState)
    (c : FetchedContest) (hc : c ∈ fetched) :
    fetchedKey c ∈ ((fetchAndStoreContests fetched st).1.contests.map rowKey) := by
  rw [fetchAndStoreContests_characterization]
  simp only [List.map_append, rowKey_numberRows, List.mem_append]
  by_cases h : fetchedKey c ∈ st.contests.map rowKey
  · exact Or.inl h
  · refine Or.inr ?_
    refine List.mem_map.mpr ⟨c, ?_, rfl⟩
    exact List.mem_filter.mpr ⟨hc, by simpa using h⟩

/-- Re-running the importer on the same batch is a no-op. -/
theorem fetchAndStoreContests_second_run (fetched : List FetchedContest)
    (st : ImportState) :
    fetchAndStoreContests fetched (fetchAndStoreContests fetched st).1
      = ((fetchAndStoreContests fetched st).1, 0) := by
  set st1 := (fetchAndStoreContests fetched st).1 with hst1
  have hnil : newOnes (st1.contests.map rowKey) fetched = [] :=
    (newOnes_eq_nil_iff _ _).mpr (fun c hc => key_mem_after_run fetched st c hc)
  rw [fetchAndStoreContests_characterization, hnil]
  simp [numberRows]

/-! ## Concrete fixtures used by counterexamples and witnesses -/

/-- A fetched Codeforces contest record (2h starting 1970-01-01T02:00Z). -/
def exFetched : FetchedContest :=
  { platform := .codeforces, name := "Round A", url := "https://codeforces.com/contests/1",
    startTime := 7200000, endTime := 14400000, duration := "2h",
    difficulty := none, contestType := "other", durationMinutes := 120 }

/-- A registered user. -/
def exUser : User := ⟨1, "alice", "alice@example.com"⟩

/-- Default notification preferences for `exUser`. -/
def exPref : NotificationPreference := ⟨1, 1, true, "1hour", true, true, true⟩

/-- A stored contest starting `tu` ms after time 0. -/
def exContest (tu : Int) : Contest :=
  ⟨1, .codeforces, "Round A", "https://codeforces.com/contests/1", tu, tu + 7200000, "2h"⟩

/-- An email environment whose transporter is ready and every send succeeds. -/
def exEnvOk : EmailEnv := ⟨true, fun _ _ => true⟩

/-- An email environment whose transporter is ready and every send fails. -/
def exEnvFail : EmailEnv := ⟨true, fun _ _ => false⟩

/-! ## C1 / C2 — deduplicating importer -/

/-- C1: for every set of already-stored contests and every aggregator output
batch, running `fetchAndStoreContests` twice in succession on the same batch
leaves the contest store with the same total number of contest rows as
running it once. -/
theorem importerDedupIdempotent (fetched : List FetchedContest) (st : ImportState) :
    (fetchAndStoreContests fetched (fetchAndStoreContests fetched st).1).1.contests.length
      = (fetchAndStoreContests fetched st).1.contests.length := by
  rw [fetchAndStoreContests_second_run]

/-- C2 counterexample: the importer checks keys against the snapshot taken
before the loop, not against the store at the time of each insertion. On the
batch `[exFetched, exFetched]` over an empty store it inserts two rows,
while insertion-time dedup (`fetchAndStoreContestsLive`, the claim's
reading) inserts one. -/
theorem importerSnapshotDedupCounterexample :
    (fetchAndStoreContests [exFetched, exFetched] ⟨[], 1⟩).1.contests.length = 2
      ∧ (fetchAndStoreContestsLive [exFetched, exFetched] ⟨[], 1⟩).1.contests.length = 1 := by
  constructor <;> decide

/-- C2 amended: one importer run appends exactly those fetched contests
whose dedup key `(platform, name, startTime-ISO-string)` is absent from the
snapshot of the store taken at the start of the run (so duplicate keys
within one batch are each inserted), in fetch order, and leaves every
already-stored row unchanged; the reported count is the number of appended
rows. -/
theorem importerInsertsSnapshotMisses (fetched : List FetchedContest) (st : ImportState) :
    (fetchAndStoreContests fetched st).1.contests
      = st.contests ++ numberRows st.nextContestId (newOnes (st.contests.map rowKey) fetched)
    ∧ (fetchAndStoreContests fetched st).2
      = (newOnes (st.contests.map rowKey) fetched).length := by
  rw [fetchAndStoreContests_characterization]
  exact ⟨rfl, rfl⟩

/-! ## Scheduler evaluation lemmas (single user, single contest) -/

theorem getUpcomingContests_single (now : Int) (c : Contest) (h : c.startTime > now) :
    getUpcomingContests now [c] = [c] := by
  simp [getUpcomingContests, List.filter_cons, h]

/-- A tick over a store holding one future contest, one user and that user's
preference row reduces to one qualification check: if the timing window
matches, a fresh pair gets a reminder created in `reminded := true` state
and one dispatch, a pending pair is flipped to `reminded := true` with one
dispatch, and a sent pair is a no-op. -/
theorem tick_single_eval (env : EmailEnv) (now tu : Int) (n : Nat)
    (user : User) (pref : NotificationPreference) (contest : Contest)
    (rs : List ContestReminder)
    (hpu : pref.userId = user.id) (he : pref.emailNotifications = true)
    (hflag : notifyFlagFor pref contest.platform = true)
    (hstart : contest.startTime = now + tu) (h0 : 0 < tu) :
    processContestNotifications env now ⟨[contest], [user], [pref], rs, n⟩
      = if shouldNotifyAt pref.notificationTiming tu = true then
          match rs.find? (fun r => decide (r.userId = user.id ∧ r.contestId = contest.id)) with
          | none =>
              (⟨[contest], [user], [pref], rs ++ [⟨n, user.id, contest.id, true⟩], n + 1⟩,
               [(user.id, contest.id, sendContestNotificationEmail env user contest)])
          | some ex =>
              if ex.reminded = false then
                (⟨[contest], [user], [pref],
                  rs.map (fun r => if r.id = ex.id then { r with reminded := true } else r), n⟩,
                 [(user.id, contest.id, sendContestNotificationEmail env user contest)])
              else (⟨[contest], [user], [pref], rs, n⟩, [])
        else (⟨[contest], [user], [pref], rs, n⟩, []) := by
  have hgt : contest.startTime > now := by rw [hstart]; omega
  have htu : contest.startTime - now = tu := by rw [hstart]; omega
  unfold processContestNotifications
  rw [show (⟨[contest], [user], [pref], rs, n⟩ : SchedState).contests = [contest] from rfl,
    getUpcomingContests_single now contest hgt]
  unfold contestsLoop contestsLoop
  unfold usersLoop usersLoop
  rw [show getAllUsers ⟨[contest], [user], [pref], rs, n⟩ = [user] from rfl]
  simp only [htu]
  unfold processUserForContest getNotificationPreferences
  simp only [List.find?, hpu, decide_eq_true_eq, getContestReminderByUserAndContest]
  by_cases hw : shouldNotifyAt pref.notificationTiming tu = true
  · simp only [hw, if_true]
    cases hfind : rs.find? (fun r => decide (r.userId = user.id ∧ r.contestId = contest.id)) with
    | none => simp [he, hflag, hw, createContestReminder]
    | some ex =>
        by_cases hr : ex.reminded = false
        · simp [he, hflag, hw, hr, updateContestReminder]
        · simp [he, hflag, hw, hr]
  · simp [he, hflag, hw]

/-- A tick over a store holding one future contest and one user with no
preference row is a no-op: the user is skipped entirely. -/
theorem tick_single_nopref (env : EmailEnv) (now tu : Int) (n : Nat)
    (user : User) (contest : Contest) (ps : List NotificationPreference)
    (rs : List ContestReminder)
    (hp : ps.find? (fun p => decide (p.userId = user.id)) = none)
    (hstart : contest.startTime = now + tu) (h0 : 0 < tu) :
    processContestNotifications env now ⟨[contest], [user], ps, rs, n⟩
      = (⟨[contest], [user], ps, rs, n⟩, []) := by
  have hgt : contest.startTime > now := by rw [hstart]; omega
  unfold processContestNotifications
  rw [show (⟨[contest], [user], ps, rs, n⟩ : SchedState).contests = [contest] from rfl,
    getUpcomingContests_single now contest hgt]
  unfold contestsLoop contestsLoop
  unfold usersLoop usersLoop
  rw [show getAllUsers ⟨[contest], [user], ps, rs, n⟩ = [user] from rfl]
  unfold processUserForContest getNotificationPreferences
  simp [hp]

theorem shouldNotifyAt_1hour (tu : Int) :
    shouldNotifyAt "1hour" tu
      = decide (tu ≤ 60 * 60 * 1000 ∧ tu > 50 * 60 * 1000) := by
  simp [shouldNotifyAt]

/-! ## C3 / C4 / C5 / C8 — notification scheduler -/

/-- C3: for a user with email notifications on, the contest's platform
notify-flag on and timing `1hour`, a scheduler tick dispatches a
notification for a future contest (no prior reminder) if and only if the
time until its start is at most 60 and strictly more than 50 minutes. -/
theorem notificationWindow1hour (env : EmailEnv) (now tu : Int) (n : Nat)
    (user : User) (pref : NotificationPreference) (contest : Contest)
    (hpu : pref.userId = user.id) (he : pref.emailNotifications = true)
    (hflag : notifyFlagFor pref contest.platform = true)
    (ht : pref.notificationTiming = "1hour")
    (hstart : contest.startTime = now + tu) (h0 : 0 < tu) :
    (processContestNotifications env now ⟨[contest], [user], [pref], [], n⟩).2 ≠ []
      ↔ (50 * 60 * 1000 < tu ∧ tu ≤ 60 * 60 * 1000) := by
  rw [tick_single_eval env now tu n user pref contest [] hpu he hflag hstart h0, ht,
    shouldNotifyAt_1hour]
  by_cases hw : 50 * 60 * 1000 < tu ∧ tu ≤ 60 * 60 * 1000
  · have hb : decide (tu ≤ 60 * 60 * 1000 ∧ tu > 50 * 60 * 1000) = true := by
      rw [decide_eq_true_eq]
      omega
    simp only [hb, if_true, List.find?_nil]
    simpa using hw
  · have hb : decide (tu ≤ 60 * 60 * 1000 ∧ tu > 50 * 60 * 1000) = false := by
      rw [decide_eq_false_iff_not]
      omega
    simp only [hb, Bool.false_eq_true, if_false, ne_eq, not_true_eq_false,
      iff_false]
    simpa using hw

/-- C3 witness: with concrete default preferences, a contest starting in
exactly 55 minutes is dispatched; ones starting in 65 or 40 minutes are not. -/
theorem notificationWindow1hourWitness :
    ((processContestNotifications exEnvOk 0
        ⟨[exContest (55 * 60 * 1000)], [exUser], [exPref], [], 1⟩).2 ≠ [])
    ∧ ¬ ((processContestNotifications exEnvOk 0
        ⟨[exContest (65 * 60 * 1000)], [exUser], [exPref], [], 1⟩).2 ≠ [])
    ∧ ¬ ((processContestNotifications exEnvOk 0
        ⟨[exContest (40 * 60 * 1000)], [exUser], [exPref], [], 1⟩).2 ≠ []) := by
  refine ⟨?_, ?_, ?_⟩
  · exact (notificationWindow1hour exEnvOk 0 (55 * 60 * 1000) 1 exUser exPref
      (exContest (55 * 60 * 1000)) rfl rfl rfl rfl (by simp [exContest]) (by decide)).mpr
      (by decide)
  · intro h
    exact absurd ((notificationWindow1hour exEnvOk 0 (65 * 60 * 1000) 1 exUser exPref
      (exContest (65 * 60 * 1000)) rfl rfl rfl rfl (by simp [exContest]) (by decide)).mp h)
      (by decide)
  · intro h
    exact absurd ((notificationWindow1hour exEnvOk 0 (40 * 60 * 1000) 1 exUser exPref
      (exContest (40 * 60 * 1000)) rfl rfl rfl rfl (by simp [exContest]) (by decide)).mp h)
      (by decide)

/-- C4: a (user, contest) pair that qualified and was marked sent on one
tick is not dispatched again by an immediately repeated tick in the same
window: the first tick dispatches exactly one email and the second none. -/
theorem idempotentDispatch (env : EmailEnv) (now tu : Int) (n : Nat)
    (user : User) (pref : NotificationPreference) (contest : Contest)
    (hpu : pref.userId = user.id) (he : pref.emailNotifications = true)
    (hflag : notifyFlagFor pref contest.platform = true)
    (ht : pref.notificationTiming = "1hour")
    (hstart : contest.startTime = now + tu)
    (hw : 50 * 60 * 1000 < tu ∧ tu ≤ 60 * 60 * 1000) :
    (processContestNotifications env now ⟨[contest], [user], [pref], [], n⟩).2.length = 1
    ∧ (processContestNotifications env now
        (processContestNotifications env now ⟨[contest], [user], [pref], [], n⟩).1).2
      = [] := by
  have h0 : 0 < tu := by omega
  have hb : shouldNotifyAt pref.notificationTiming tu = true := by
    rw [ht, shouldNotifyAt_1hour, decide_eq_true_eq]
    omega
  have h1 := tick_single_eval env now tu n user pref contest [] hpu he hflag hstart h0
  rw [hb, if_pos rfl, List.find?_nil] at h1
  simp only [List.nil_append] at h1
  rw [h1]
  refine ⟨rfl, ?_⟩
  have h2 := tick_single_eval env now tu (n + 1) user pref contest
    [⟨n, user.id, contest.id, true⟩] hpu he hflag hstart h0
  rw [hb, if_pos rfl] at h2
  simp at h2
  rw [h2]

/-- C4 witness: one dispatch in total across two successive ticks for the
concrete default-preference user and a contest 55 minutes out. -/
theorem idempotentDispatchWitness :
    (processContestNotifications exEnvOk 0
        ⟨[exContest (55 * 60 * 1000)], [exUser], [exPref], [], 1⟩).2.length = 1
    ∧ (processContestNotifications exEnvOk 0
        (processContestNotifications exEnvOk 0
          ⟨[exContest (55 * 60 * 1000)], [exUser], [exPref], [], 1⟩).1).2 = [] :=
  idempotentDispatch exEnvOk 0 (55 * 60 * 1000) 1 exUser exPref
    (exContest (55 * 60 * 1000)) rfl rfl rfl rfl (by simp [exContest]) (by decide)

/-- C5 counterexample: with every `sendMail` failing, the tick still stores
the pair's reminder with `reminded = true` (the flag is advanced before the
dispatch attempt and regardless of its result), and an immediately repeated
qualifying tick does not retry the failed send. -/
theorem reminderMarkedBeforeDispatchCounterexample :
    (processContestNotifications exEnvFail 0
        ⟨[exContest (55 * 60 * 1000)], [exUser], [exPref], [], 1⟩).2 = [(1, 1, false)]
    ∧ (processContestNotifications exEnvFail 0
        ⟨[exContest (55 * 60 * 1000)], [exUser], [exPref], [], 1⟩).1.reminders
      = [⟨1, 1, 1, true⟩]
    ∧ (processContestNotifications exEnvFail 0
        (processContestNotifications exEnvFail 0
          ⟨[exContest (55 * 60 * 1000)], [exUser], [exPref], [], 1⟩).1).2 = [] := by
  have h1 : processContestNotifications exEnvFail 0
      ⟨[exContest (55 * 60 * 1000)], [exUser], [exPref], [], 1⟩
      = (⟨[exContest (55 * 60 * 1000)], [exUser], [exPref], [⟨1, 1, 1, true⟩], 2⟩,
         [(1, 1, false)]) := by
    rw [tick_single_eval exEnvFail 0 (55 * 60 * 1000) 1 exUser exPref
      (exContest (55 * 60 * 1000)) [] rfl rfl rfl (by decide) (by decide)]
    decide
  have h2 : processContestNotifications exEnvFail 0
      ⟨[exContest (55 * 60 * 1000)], [exUser], [exPref], [⟨1, 1, 1, true⟩], 2⟩
      = (⟨[exContest (55 * 60 * 1000)], [exUser], [exPref], [⟨1, 1, 1, true⟩], 2⟩, []) := by
    rw [tick_single_eval exEnvFail 0 (55 * 60 * 1000) 2 exUser exPref
      (exContest (55 * 60 * 1000)) [⟨1, 1, 1, true⟩] rfl rfl rfl (by decide) (by decide)]
    decide
  refine ⟨by rw [h1], by rw [h1], by rw [h1, h2]⟩

/-- C5 amended: for a fresh qualifying (user, contest) pair the scheduler
creates the reminder directly in `reminded = true` state *before* the
dispatch attempt and keeps it whatever `sendContestNotificationEmail`
returns, so a failed dispatch is not retried by a later qualifying tick. -/
theorem reminderMarkedRegardlessOfDispatch (env : EmailEnv) (now tu : Int) (n : Nat)
    (user : User) (pref : NotificationPreference) (contest : Contest)
    (hpu : pref.userId = user.id) (he : pref.emailNotifications = true)
    (hflag : notifyFlagFor pref contest.platform = true)
    (ht : pref.notificationTiming = "1hour")
    (hstart : contest.startTime = now + tu)
    (hw : 50 * 60 * 1000 < tu ∧ tu ≤ 60 * 60 * 1000) :
    (processContestNotifications env now ⟨[contest], [user], [pref], [], n⟩).1.reminders
      = [⟨n, user.id, contest.id, true⟩]
    ∧ (processContestNotifications env now ⟨[contest], [user], [pref], [], n⟩).2
      = [(user.id, contest.id, sendContestNotificationEmail env user contest)]
    ∧ (processContestNotifications env now
        (processContestNotifications env now ⟨[contest], [user], [pref], [], n⟩).1).2
      = [] := by
  have h0 : 0 < tu := by omega
  have hb : shouldNotifyAt pref.notificationTiming tu = true := by
    rw [ht, shouldNotifyAt_1hour, decide_eq_true_eq]
    omega
  have h1 := tick_single_eval env now tu n user pref contest [] hpu he hflag hstart h0
  rw [hb, if_pos rfl, List.find?_nil] at h1
  simp only [List.nil_append] at h1
  rw [h1]
  refine ⟨rfl, rfl, ?_⟩
  have h2 := tick_single_eval env now tu (n + 1) user pref contest
    [⟨n, user.id, contest.id, true⟩] hpu he hflag hstart h0
  rw [hb, if_pos rfl] at h2
  simp at h2
  rw [h2]

/-- C5 witness: the amended behavior at the concrete failing-send
environment. -/
theorem reminderMarkedRegardlessOfDispatchWitness :
    (processContestNotifications exEnvFail 0
        ⟨[exContest (55 * 60 * 1000)], [exUser], [exPref], [], 1⟩).1.reminders
      = [⟨1, 1, 1, true⟩]
    ∧ (processContestNotifications exEnvFail 0
        ⟨[exContest (55 * 60 * 1000)], [exUser], [exPref], [], 1⟩).2
      = [(1, 1, sendContestNotificationEmail exEnvFail exUser (exContest (55 * 60 * 1000)))]
    ∧ (processContestNotifications exEnvFail 0
        (processContestNotifications exEnvFail 0
          ⟨[exContest (55 * 60 * 1000)], [exUser], [exPref], [], 1⟩).1).2 = [] :=
  reminderMarkedRegardlessOfDispatch exEnvFail 0 (55 * 60 * 1000) 1 exUser exPref
    (exContest (55 * 60 * 1000)) rfl rfl rfl rfl (by simp [exContest]) (by decide)

/-- C8 counterexample: a user with no stored preference row is skipped by
the scheduler (no dispatch), while the same state with the explicit default
preference row dispatches — absence is not treated as "defaults enabled" by
the tick. -/
theorem missingPreferenceDefaultsCounterexample :
    (processContestNotifications exEnvOk 0
        ⟨[exContest (55 * 60 * 1000)], [exUser], [], [], 1⟩).2 = []
    ∧ (processContestNotifications exEnvOk 0
        ⟨[exContest (55 * 60 * 1000)], [exUser], [exPref], [], 1⟩).2 = [(1, 1, true)] := by
  constructor
  · rw [tick_single_nopref exEnvOk 0 (55 * 60 * 1000) 1 exUser
      (exContest (55 * 60 * 1000)) [] [] rfl (by decide) (by decide)]
  · rw [tick_single_eval exEnvOk 0 (55 * 60 * 1000) 1 exUser exPref
      (exContest (55 * 60 * 1000)) [] rfl rfl rfl (by decide) (by decide)]
    decide

/-- C8 amended: the scheduler skips a user with no stored preference row
entirely, and a preference row with a missing/unrecognized
`notificationTiming` string never qualifies on that tick (it is not treated
as `1hour`); default rows are instead created by the registration and
GET-preferences routes. -/
theorem schedulerDefensiveDefaults :
    (∀ (env : EmailEnv) (now tu : Int) (n : Nat) (user : User) (contest : Contest)
        (ps : List NotificationPreference) (rs : List ContestReminder),
        ps.find? (fun p => decide (p.userId = user.id)) = none →
        contest.startTime = now + tu → 0 < tu →
        processContestNotifications env now ⟨[contest], [user], ps, rs, n⟩
          = (⟨[contest], [user], ps, rs, n⟩, []))
    ∧ (∀ (env : EmailEnv) (now tu : Int) (n : Nat) (user : User)
        (pref : NotificationPreference) (contest : Contest) (rs : List ContestReminder),
        pref.userId = user.id → pref.emailNotifications = true →
        notifyFlagFor pref contest.platform = true →
        pref.notificationTiming ≠ "1hour" → pref.notificationTiming ≠ "3hours" →
        pref.notificationTiming ≠ "1day" →
        contest.startTime = now + tu → 0 < tu →
        processContestNotifications env now ⟨[contest], [user], [pref], rs, n⟩
          = (⟨[contest], [user], [pref], rs, n⟩, [])) := by
  constructor
  · intro env now tu n user contest ps rs hp hstart h0
    exact tick_single_nopref env now tu n user contest ps rs hp hstart h0
  · intro env now tu n user pref contest rs hpu he hflag ht1 ht2 ht3 hstart h0
    have hb : shouldNotifyAt pref.notificationTiming tu = false := by
      simp [shouldNotifyAt, ht1, ht2, ht3]
    rw [tick_single_eval env now tu n user pref contest rs hpu he hflag hstart h0, hb]
    simp

/-- C8 witness: the concrete no-preference user is skipped, and a timing
string `"2hours"` never dispatches. -/
theorem schedulerDefensiveDefaultsWitness :
    processContestNotifications exEnvOk 0
        ⟨[exContest (55 * 60 * 1000)], [exUser], [], [], 1⟩
      = (⟨[exContest (55 * 60 * 1000)], [exUser], [], [], 1⟩, [])
    ∧ processContestNotifications exEnvOk 0
        ⟨[exContest (55 * 60 * 1000)], [exUser], [⟨1, 1, true, "2hours", true, true, true⟩], [], 1⟩
      = (⟨[exContest (55 * 60 * 1000)], [exUser],
          [⟨1, 1, true, "2hours", true, true, true⟩], [], 1⟩, []) :=
  ⟨schedulerDefensiveDefaults.1 exEnvOk 0 (55 * 60 * 1000) 1 exUser
      (exContest (55 * 60 * 1000)) [] [] (by decide) (by simp [exContest]) (by decide),
   schedulerDefensiveDefaults.2 exEnvOk 0 (55 * 60 * 1000) 1 exUser
      ⟨1, 1, true, "2hours", true, true, true⟩ (exContest (55 * 60 * 1000)) []
      (by decide) (by decide) (by decide) (by decide) (by decide) (by decide)
      (by simp [exContest]) (by decide)⟩

/-! ## C10 — at most one reminder row per (user, contest) pair -/

theorem pairUnique_createContestReminder (st : SchedState) (userId contestId : Nat)
    (reminded : Bool) (h : ReminderPairUnique st)
    (hnone : getContestReminderByUserAndContest st userId contestId = none) :
    ReminderPairUnique (createContestReminder st userId contestId reminded) := by
  unfold ReminderPairUnique createContestReminder at *
  rw [List.pairwise_append]
  refine ⟨h, List.pairwise_singleton _ _, ?_⟩
  intro a ha b hb
  have hb' : b = ⟨st.nextReminderId, userId, contestId, reminded⟩ := by
    simpa using hb
  subst hb'
  have := List.find?_eq_none.mp hnone a ha
  simpa using this

theorem pairUnique_updateContestReminder (st : SchedState) (id : Nat) (reminded : Bool)
    (h : ReminderPairUnique st) :
    ReminderPairUnique (updateContestReminder st id reminded) := by
  unfold ReminderPairUnique updateContestReminder at *
  refine List.Pairwise.map _ ?_ h
  intro a b hab
  by_cases ha : a.id = id <;> by_cases hb : b.id = id <;>
    simp [ha, hb] <;> simpa using hab

theorem pairUnique_processUserForContest (env : EmailEnv) (contest : Contest)
    (timeUntilStart : Int) (user : User) (st : SchedState)
    (h : ReminderPairUnique st) :
    ReminderPairUnique (processUserForContest env contest timeUntilStart user st).1 := by
  unfold processUserForContest
  cases getNotificationPreferences st user.id with
  | none => exact h
  | some preferences =>
      by_cases h1 : preferences.emailNotifications = false
      · simpa [h1] using h
      · by_cases h2 : notifyFlagFor preferences contest.platform = false
        · simpa [h1, h2] using h
        · by_cases h3 : shouldNotifyAt preferences.notificationTiming timeUntilStart
          · simp only [h1, h2, h3, if_false, if_true, Bool.false_eq_true]
            cases hfind : getContestReminderByUserAndContest st user.id contest.id with
            | none => exact pairUnique_createContestReminder st user.id contest.id true h hfind
            | some ex =>
                by_cases hr : ex.reminded = false
                · simpa [hr] using pairUnique_updateContestReminder st ex.id true h
                · simpa [hr] using h
          · simpa [h1, h2, h3] using h

theorem pairUnique_usersLoop (env : EmailEnv) (contest : Contest) (timeUntilStart : Int)
    (users : List User) (st : SchedState) (h : ReminderPairUnique st) :
    ReminderPairUnique (usersLoop env contest timeUntilStart users st).1 := by
  induction users generalizing st with
  | nil => exact h
  | cons u rest ih =>
      exact ih _ (pairUnique_processUserForContest env contest timeUntilStart u st h)

theorem pairUnique_contestsLoop (env : EmailEnv) (now : Int) (contests : List Contest)
    (st : SchedState) (h : ReminderPairUnique st) :
    ReminderPairUnique (contestsLoop env now contests st).1 := by
  induction contests generalizing st with
  | nil => exact h
  | cons c rest ih =>
      exact ih _ (pairUnique_usersLoop env c (c.startTime - now) (getAllUsers st) st h)

theorem pairUnique_tick (env : EmailEnv) (now : Int) (st : SchedState)
    (h : ReminderPairUnique st) :
    ReminderPairUnique (processContestNotifications env now st).1 :=
  pairUnique_contestsLoop env now (getUpcomingContests now st.contests) st h

theorem pairUnique_optIn (userId contestId : Nat) (st : SchedState)
    (h : ReminderPairUnique st) :
    ReminderPairUnique (createContestReminderRoute userId contestId st).1 := by
  unfold createContestReminderRoute
  cases st.contests.find? (fun c => decide (c.id = contestId)) with
  | none => exact h
  | some c =>
      cases hfind : getContestReminderByUserAndContest st userId contestId with
      | none => exact pairUnique_createContestReminder st userId contestId false h hfind
      | some ex => exact h

/-- C10: every state reachable, via scheduler ticks and the reminder opt-in
endpoint, from a state with at most one reminder row per (userId, contestId)
pair again has at most one reminder row per pair: the endpoint answers 409
without writing when the pair exists, and the scheduler creates a reminder
only when the pair has none. -/
theorem reminderPairUniqueInvariant (s t : SchedState)
    (hs : ReminderPairUnique s) (hr : SchedReachable s t) :
    ReminderPairUnique t := by
  induction hr with
  | refl => exact hs
  | step _ hstep ih =>
      cases hstep with
      | tick env now => exact pairUnique_tick env now _ ih
      | optIn userId contestId => exact pairUnique_optIn userId contestId _ ih

/-- C10 witness: the invariant holds of the state reached from an empty
store by one opt-in call followed by one scheduler tick. -/
theorem reminderPairUniqueInvariantWitness :
    ReminderPairUnique
      (processContestNotifications exEnvOk 0
        (createContestReminderRoute 1 1
          ⟨[exContest (55 * 60 * 1000)], [exUser], [exPref], [], 1⟩).1).1 :=
  reminderPairUniqueInvariant
    ⟨[exContest (55 * 60 * 1000)], [exUser], [exPref], [], 1⟩ _
    (by simp [ReminderPairUnique])
    (.step (.step (.refl _) (.optIn 1 1 _)) (.tick exEnvOk 0 _))

/-! ## C6 / C7 — aggregator and fetcher fallback behavior -/

/-- An aggregator environment where Codeforces returns one contest, CodeChef
returns an empty list, and both LeetCode sources throw. -/
def exEnvAgg : FetchEnv :=
  ⟨1743465600000, .ok [⟨1, "Round A", 7200, 1743470000⟩], .ok [], .err, .err⟩

/-- An environment where every external source throws. -/
def exEnvAllFail : FetchEnv := ⟨1743465600000, .err, .err, .err, .err⟩

/-- An environment where the LeetCode GraphQL call throws but the
`kontests.net` fallback answers with one contest. -/
def exEnvLcFallback : FetchEnv :=
  ⟨1743465600000, .err, .err, .err,
   .ok [⟨"Weekly Contest 445", "https://leetcode.com", 1743865800000, 1743871200000⟩]⟩

/-- C6 counterexample: with both LeetCode sources failing, the LeetCode
fetcher contributes four synthesized records — not zero — to the aggregate,
alongside the other two platforms' records. -/
theorem partialFailureZeroContributionCounterexample :
    exEnvAgg.lcPrimary = .err ∧ exEnvAgg.lcSecondary = .err
    ∧ (fetchLeetcodeContests exEnvAgg).length = 4
    ∧ (fetchCodeforcesContests exEnvAgg).length = 1
    ∧ fetchCodechefContests exEnvAgg = []
    ∧ (fetchAllContests exEnvAgg).length = 5 := by
  refine ⟨rfl, rfl, by decide, by decide, by decide, by decide⟩

/-- C6 amended: `fetchAllContests` always returns the concatenation of the
three fetchers' outputs in platform order; a failing Codeforces or CodeChef
source contributes zero records, while the LeetCode fetcher contributes its
four synthesized placeholder records when both of its sources fail; in
every case the other platforms' records are still returned. -/
theorem fetchAllAggregation (env : FetchEnv) :
    fetchAllContests env
        = fetchCodeforcesContests env ++ fetchCodechefContests env
            ++ fetchLeetcodeContests env
    ∧ (env.cfResp = .err → fetchCodeforcesContests env = [])
    ∧ (env.ccResp = .err → fetchCodechefContests env = [])
    ∧ (env.lcPrimary = .err → env.lcSecondary = .err →
        fetchLeetcodeContests env = fabricatedLeetcodeContests env.nowMs) := by
  refine ⟨rfl, ?_, ?_, ?_⟩
  · intro h
    simp [fetchCodeforcesContests, h]
  · intro h
    simp [fetchCodechefContests, h]
  · intro h1 h2
    simp [fetchLeetcodeContests, h1, h2]

/-- C6 witness: the amended behavior at the concrete environment where
every source fails. -/
theorem fetchAllAggregationWitness :
    fetchCodeforcesContests exEnvAllFail = []
    ∧ fetchCodechefContests exEnvAllFail = []
    ∧ fetchLeetcodeContests exEnvAllFail
        = fabricatedLeetcodeContests exEnvAllFail.nowMs :=
  ⟨(fetchAllAggregation exEnvAllFail).2.1 rfl,
   (fetchAllAggregation exEnvAllFail).2.2.1 rfl,
   (fetchAllAggregation exEnvAllFail).2.2.2 rfl rfl⟩

/-- C7 counterexample: when both of its sources are unavailable, the
LeetCode fetcher does not return the empty sequence — it synthesizes four
placeholder weekly/biweekly contests from the clock alone. -/
theorem leetcodeFabricationCounterexample :
    (fetchLeetcodeContests exEnvAllFail).length = 4
    ∧ (fetchLeetcodeContests exEnvAllFail).map (fun c => c.name)
        = ["Weekly Contest 444", "Biweekly Contest 154",
           "Weekly Contest 443", "Biweekly Contest 153"] := by
  refine ⟨by decide, by decide⟩

/-- C7 amended: the Codeforces and CodeChef fetchers return empty on source
failure and never synthesize records; the LeetCode fetcher falls back to a
secondary source when the primary fails, and when both fail it synthesizes
exactly four placeholder records that come from no external source. -/
theorem fetcherFallbackChain (env : FetchEnv) :
    (env.cfResp = .err → fetchCodeforcesContests env = [])
    ∧ (env.ccResp = .err → fetchCodechefContests env = [])
    ∧ (∀ l, env.lcPrimary = .err → env.lcSecondary = .ok l →
        fetchLeetcodeContests env = l.map lcKontestsRecordOf)
    ∧ (env.lcPrimary = .err → env.lcSecondary = .err →
        fetchLeetcodeContests env = fabricatedLeetcodeContests env.nowMs
        ∧ (fabricatedLeetcodeContests env.nowMs).length = 4) := by
  refine ⟨?_, ?_, ?_, ?_⟩
  · intro h
    simp [fetchCodeforcesContests, h]
  · intro h
    simp [fetchCodechefContests, h]
  · intro l h1 h2
    simp [fetchLeetcodeContests, h1, h2]
  · intro h1 h2
    exact ⟨by simp [fetchLeetcodeContests, h1, h2], by simp [fabricatedLeetcodeContests]⟩

/-- C7 witness: the amended behavior at the concrete environments for the
secondary-source fallback and the double-failure fabrication. -/
theorem fetcherFallbackChainWitness :
    fetchLeetcodeContests exEnvLcFallback
        = [⟨"Weekly Contest 445", "https://leetcode.com", 1743865800000, 1743871200000⟩].map
            lcKontestsRecordOf
    ∧ fetchLeetcodeContests exEnvAllFail = fabricatedLeetcodeContests exEnvAllFail.nowMs
    ∧ (fabricatedLeetcodeContests exEnvAllFail.nowMs).length = 4 :=
  ⟨(fetcherFallbackChain exEnvLcFallback).2.2.1 _ rfl rfl,
   ((fetcherFallbackChain exEnvAllFail).2.2.2 rfl rfl).1,
   ((fetcherFallbackChain exEnvAllFail).2.2.2 rfl rfl).2⟩

/-! ## C9 — duration fields of fetched records -/

/-- C9 counterexample: the Codeforces fetcher computes `durationMinutes`
with `Math.floor`, not `Math.round`: a 90-second contest gets
`durationMinutes = 1` while `round((endTime - startTime) / 60s) = 2`. -/
theorem durationRoundingCounterexample :
    (cfRecordOf ⟨1, "Sample Round", 90, 100⟩).durationMinutes = 1
    ∧ jsRoundDiv ((cfRecordOf ⟨1, "Sample Round", 90, 100⟩).endTime
        - (cfRecordOf ⟨1, "Sample Round", 90, 100⟩).startTime) 60000 = 2
    ∧ (cfRecordOf ⟨1, "Sample Round", 90, 100⟩).durationMinutes
        ≠ jsRoundDiv ((cfRecordOf ⟨1, "Sample Round", 90, 100⟩).endTime
            - (cfRecordOf ⟨1, "Sample Round", 90, 100⟩).startTime) 60000 := by
  refine ⟨by decide, by decide, by decide⟩

theorem mul_1000_fdiv_60000 (s : Int) : (s * 1000).fdiv 60000 = s.fdiv 60 := by
  rw [Int.fdiv_eq_ediv _ (by decide : (0:Int) ≤ 60000),
    Int.fdiv_eq_ediv _ (by decide : (0:Int) ≤ 60),
    mul_comm s 1000, show (60000 : Int) = 1000 * 60 from rfl]
  exact Int.mul_ediv_mul_of_pos _ _ (by decide)

/-- C9 amended: for every fetched Codeforces record, `durationMinutes`
equals `⌊(endTime - startTime) / 60000 ms⌋ = ⌊durationSeconds / 60⌋` (floor,
not round), and the duration string is `formatDuration durationSeconds` —
`"<h>h <m>m"` with a zero hour or zero minute component omitted (a duration
under one minute renders as `"0m"`); a 7200-second contest renders `"2h"`
and a 5400-second one `"1h 30m"`. -/
theorem durationFieldsFloor (c : CodeforcesContest) :
    (cfRecordOf c).durationMinutes
        = ((cfRecordOf c).endTime - (cfRecordOf c).startTime).fdiv 60000
    ∧ (cfRecordOf c).duration = formatDuration c.durationSeconds
    ∧ formatDuration 7200 = "2h"
    ∧ formatDuration 5400 = "1h 30m" := by
  refine ⟨?_, rfl, by decide, by decide⟩
  show c.durationSeconds.fdiv 60
      = (calculateEndTime (c.startTimeSeconds * 1000) c.durationSeconds
          - c.startTimeSeconds * 1000).fdiv 60000
  rw [calculateEndTime, add_sub_cancel_left, mul_1000_fdiv_60000]

end ContestTrack
